import Mathlib

/-!
Verification of the CrewAI agent adapter (`copilotkit/crewai_agent.py`):
the event-translation and state-prediction core.  Python dictionaries are
embedded as ordered association lists (insertion order preserved, one
binding per key, later inserts overriding in place), JSON payloads as the
inductive `JValue`, and the in-place mutation of the per-run execution
state as explicit state passing.
-/

/-- A JSON value, the payloads carried through flow state and tool-call
arguments.  Numbers are modelled at integer precision; no claim touches
fractional values. -/
inductive JValue where
  | null : JValue
  | bool : Bool → JValue
  | num : Int → JValue
  | str : String → JValue
  | arr : List JValue → JValue
  | obj : List (String × JValue) → JValue

/-- A Python dict with string keys, as an ordered association list. -/
abbrev StateDict := List (String × JValue)

/-- Python `d.get(k)`: the value bound to `k`, or `none`. -/
def dictGet (d : StateDict) (k : String) : Option JValue :=
  match d with
  | [] => none
  | kv :: rest => if kv.1 = k then some kv.2 else dictGet rest k

/-- Python `d[k] = v`: replaces the binding in place when `k` is present
(keeping its position, as Python dicts do), appends it otherwise. -/
def dictInsert (d : StateDict) (k : String) (v : JValue) : StateDict :=
  match d with
  | [] => [(k, v)]
  | kv :: rest => if kv.1 = k then (k, v) :: rest else kv :: dictInsert rest k v

/-- Python `{**a, **b}`: `a` updated by every binding of `b` in order. -/
def dictMerge (a b : StateDict) : StateDict :=
  b.foldl (fun acc kv => dictInsert acc kv.1 kv.2) a

/-- `filter_state` (crewai_agent.py lines 330-333): drops the excluded
keys; `exclude_keys or ["messages", "id"]` means both `None` and the
empty list fall back to the default exclude list. -/
def filter_state (state : StateDict) (exclude_keys : Option (List String)) : StateDict :=
  let ek := match exclude_keys with
    | none => ["messages", "id"]
    | some [] => ["messages", "id"]
    | some ks => ks
  state.filter (fun kv => kv.1 ∉ ek)

/-- Drops leading JSON whitespace. -/
def skipWs : List Char → List Char
  | [] => []
  | c :: cs => if c = ' ' ∨ c = '\n' ∨ c = '\t' ∨ c = '\r' then skipWs cs else c :: cs

/-- Reads the body of a JSON string after its opening quote; `none` when
the input ends before the closing quote (the string was cut off). -/
def parseStringChars : List Char → Option (String × List Char)
  | [] => none
  | '"' :: cs => some ("", cs)
  | '\\' :: [] => none
  | '\\' :: d :: ds =>
    (parseStringChars ds).map (fun sr =>
      (((if d = 'n' then '\n' else if d = 't' then '\t' else d).toString) ++ sr.1, sr.2))
  | c :: cs => (parseStringChars cs).map (fun sr => (c.toString ++ sr.1, sr.2))

/-- Takes the leading run of decimal digits. -/
def takeDigits : List Char → String × List Char
  | [] => ("", [])
  | c :: cs =>
    if c.isDigit then
      let sr := takeDigits cs
      (c.toString ++ sr.1, sr.2)
    else ("", c :: cs)

/-- The natural number denoted by a digit string. -/
def digitsToNat (s : String) : Nat :=
  s.foldl (fun n c => n * 10 + (c.toNat - 48)) 0

/-- Skips a fractional part, whose digits the integer-precision model
discards. -/
def skipFraction : List Char → List Char
  | '.' :: rest => (takeDigits rest).2
  | cs => cs

/-- Matches a literal character by character; `none` when the input
deviates or ends first. -/
def dropLit : List Char → List Char → Option (List Char)
  | [], cs => some cs
  | _ :: _, [] => none
  | l :: ls, c :: cs => if c = l then dropLit ls cs else none

mutual

/-- Modelled from the spec: one value inside the tolerant streaming JSON
parser (`partialjson`'s `JSONParser.parse`, a dependency whose code is not
part of this repository).  Returns `none` when the value is cut off or
malformed; a truncated nested object or array yields its well-formed
leading portion. -/
def parseValue : Nat → List Char → Option (JValue × List Char)
  | 0, _ => none
  | Nat.succ fuel, cs =>
    match skipWs cs with
    | [] => none
    | '"' :: rest => (parseStringChars rest).map (fun sr => (JValue.str sr.1, sr.2))
    | '{' :: rest =>
      let or := parseObjectEntries fuel rest []
      some (JValue.obj or.1, or.2)
    | '[' :: rest =>
      let ar := parseArrayItems fuel rest []
      some (JValue.arr ar.1, ar.2)
    | 't' :: rest => (dropLit ['r', 'u', 'e'] rest).map (fun r => (JValue.bool true, r))
    | 'f' :: rest => (dropLit ['a', 'l', 's', 'e'] rest).map (fun r => (JValue.bool false, r))
    | 'n' :: rest => (dropLit ['u', 'l', 'l'] rest).map (fun r => (JValue.null, r))
    | '-' :: rest =>
      let dr := takeDigits rest
      if dr.1.isEmpty then none
      else some (JValue.num (-(Int.ofNat (digitsToNat dr.1))), skipFraction dr.2)
    | c :: rest =>
      if c.isDigit then
        let dr := takeDigits (c :: rest)
        some (JValue.num (Int.ofNat (digitsToNat dr.1)), skipFraction dr.2)
      else none

/-- Modelled from the spec: the entries of an object under the tolerant
parser.  A key whose value got cut off mid-string is dropped; a key with
a complete value is kept, also when the input ends right after it. -/
def parseObjectEntries : Nat → List Char → List (String × JValue) →
    (List (String × JValue)) × List Char
  | 0, _, acc => (acc, [])
  | Nat.succ fuel, cs, acc =>
    match skipWs cs with
    | [] => (acc, [])
    | '}' :: rest => (acc, rest)
    | '"' :: rest =>
      match parseStringChars rest with
      | none => (acc, [])
      | some (key, r2) =>
        match skipWs r2 with
        | ':' :: r3 =>
          match parseValue fuel r3 with
          | none => (acc, [])
          | some (v, r4) =>
            match skipWs r4 with
            | ',' :: r5 => parseObjectEntries fuel r5 (dictInsert acc key v)
            | '}' :: r5 => (dictInsert acc key v, r5)
            | _ => (dictInsert acc key v, [])
        | _ => (acc, [])
    | _ => (acc, [])

/-- Modelled from the spec: the items of an array under the tolerant
parser; incomplete trailing items are dropped. -/
def parseArrayItems : Nat → List Char → List JValue → (List JValue) × List Char
  | 0, _, acc => (acc, [])
  | Nat.succ fuel, cs, acc =>
    match skipWs cs with
    | [] => (acc, [])
    | ']' :: rest => (acc, rest)
    | rest =>
      match parseValue fuel rest with
      | none => (acc, [])
      | some (v, r) =>
        match skipWs r with
        | ',' :: r2 => parseArrayItems fuel r2 (acc ++ [v])
        | ']' :: r2 => (acc ++ [v], r2)
        | _ => (acc ++ [v], [])

end

/-- Modelled from the spec: the tolerant streaming JSON parser
(`partialjson.json_parser.JSONParser.parse`, a third-party dependency not
in this repository's sources).  Per the spec it extracts the best-effort
object from the well-formed leading portion of a possibly truncated text;
`none` when no object can be extracted, which the caller treats as "no
update available yet". -/
def tolerantParse (s : String) : Option StateDict :=
  match skipWs s.toList with
  | '{' :: rest => some (parseObjectEntries (s.length + 1) rest []).1
  | _ => none


/-- One entry of `predict_state_configuration`: which tool feeds a state
key, and optionally which single argument field to extract. -/
structure PredictStateConfig where
  tool_name : String
  tool_argument : Option String

/-- `CrewAIFlowExecutionState` (crewai_agent.py lines 44-54): the mutable
per-run bookkeeping, threaded here as an explicit value. -/
structure CrewAIFlowExecutionState where
  should_exit : Bool
  node_name : String
  is_finished : Bool
  predict_state_configuration : List (String × PredictStateConfig)
  predicted_state : StateDict
  argument_buffer : String
  current_tool_call : Option String

/-- The initial execution state built in `execute_flow`
(crewai_agent.py lines 172-180). -/
def initialExecutionState : CrewAIFlowExecutionState :=
  ⟨false, "start", false, [], [], "", none⟩

/-- An internal CrewAI flow event (`CopilotKitCrewAIFlowEventType`), with
the payload fields each handler branch reads.  `unknown` stands for any
discriminant outside the mapping table. -/
inductive EventData where
  | emitMessage : String → String → EventData
  | emitToolCall : String → String → String → EventData
  | emitState : StateDict → EventData
  | exit : EventData
  | predictStateEvent : List (String × PredictStateConfig) → EventData
  | methodExecutionStarted : String → EventData
  | methodExecutionFinished : EventData
  | flowExecutionStarted : EventData
  | flowExecutionFinished : EventData
  | flowExecutionError : String → EventData
  | textMessageStart : String → Option String → EventData
  | textMessageContent : String → String → EventData
  | textMessageEnd : String → EventData
  | actionExecutionStart : String → String → Option String → EventData
  | actionExecutionArgs : String → String → EventData
  | actionExecutionEnd : String → EventData
  | unknown : String → EventData

/-- An outgoing protocol event.  The agent-state snapshot carries the
state document itself; `json.dumps`, being injective on documents, is
left outside the embedding.  Fields follow the keyword arguments of the
`protocol` constructors. -/
inductive ProtocolEvent where
  | textMessageStart : String → Option String → ProtocolEvent
  | textMessageContent : String → String → ProtocolEvent
  | textMessageEnd : String → ProtocolEvent
  | actionExecutionStart : String → String → Option String → ProtocolEvent
  | actionExecutionArgs : String → String → ProtocolEvent
  | actionExecutionEnd : String → ProtocolEvent
  | agentStateMessage : String → String → String → String → Bool → String →
      StateDict → Bool → ProtocolEvent

/-- The `for k, v in execution_state["predict_state_configuration"].items()`
loop of `predict_state` (crewai_agent.py lines 573-586): folds every
configuration entry matching the current tool call into the predicted
state, flagging whether any update happened.  The
`if argument_value is not None` guard skips both an absent argument key
and a parsed JSON `null` (Python `None` either way), so neither counts as
an update. -/
def predict_state_update_loop (current_tool_call : String) (current_arguments : StateDict)
    (config : List (String × PredictStateConfig)) (predicted : StateDict) :
    StateDict × Bool :=
  config.foldl
    (fun acc entry =>
      if entry.2.tool_name = current_tool_call then
        match entry.2.tool_argument with
        | some tool_argument =>
          match dictGet current_arguments tool_argument with
          | some JValue.null => acc
          | some argument_value => (dictInsert acc.1 entry.1 argument_value, true)
          | none => acc
        | none => (dictInsert acc.1 entry.1 (JValue.obj current_arguments), true)
      else acc)
    (predicted, false)

/-- `predict_state` (crewai_agent.py lines 533-602).  Returns the updated
execution state (the Python function mutates it in place) together with
the optional agent-state snapshot. -/
def predict_state (thread_id agent_name run_id : String) (event_data : EventData)
    (execution_state : CrewAIFlowExecutionState) (state : StateDict) :
    CrewAIFlowExecutionState × Option ProtocolEvent :=
  match event_data with
  | EventData.actionExecutionStart _ action_name _ =>
    ({ execution_state with current_tool_call := some action_name, argument_buffer := "" },
      none)
  | EventData.actionExecutionArgs _ args =>
    let argument_buffer := execution_state.argument_buffer ++ args
    let es := { execution_state with argument_buffer := argument_buffer }
    let tool_names :=
      execution_state.predict_state_configuration.map (fun c => c.2.tool_name)
    match execution_state.current_tool_call with
    | none => (es, none)
    | some tc =>
      if !(tool_names.contains tc) then (es, none)
      else
        match tolerantParse argument_buffer with
        | none => (es, none)
        | some current_arguments =>
          let upd := predict_state_update_loop tc current_arguments
            execution_state.predict_state_configuration execution_state.predicted_state
          let es2 := { es with predicted_state := upd.1 }
          if upd.2 then
            (es2, some (ProtocolEvent.agentStateMessage thread_id agent_name
              execution_state.node_name run_id true "assistant"
              (filter_state (dictMerge state upd.1) none) true))
          else (es2, none)
  | _ => (execution_state, none)

/-- `handle_crewai_flow_event` (crewai_agent.py lines 335-530).  The
`Except` error is the `ValueError` raised on an unknown event type; the
optional event list is the `emit_runtime_events` batch (`none` models the
Python `return None` branches). -/
def handle_crewai_flow_event (event_data : EventData) (thread_id agent_name : String)
    (state : StateDict) (run_id : String)
    (execution_state : CrewAIFlowExecutionState) :
    Except String (CrewAIFlowExecutionState × Option (List ProtocolEvent)) :=
  match event_data with
  | EventData.emitMessage message_id message =>
    Except.ok (execution_state, some
      [ProtocolEvent.textMessageStart message_id none,
       ProtocolEvent.textMessageContent message_id message,
       ProtocolEvent.textMessageEnd message_id])
  | EventData.emitToolCall message_id name args_json =>
    Except.ok (execution_state, some
      [ProtocolEvent.actionExecutionStart message_id name none,
       ProtocolEvent.actionExecutionArgs message_id args_json,
       ProtocolEvent.actionExecutionEnd message_id])
  | EventData.emitState event_state =>
    Except.ok (execution_state, some
      [ProtocolEvent.agentStateMessage thread_id agent_name
        execution_state.node_name run_id true "assistant"
        (filter_state event_state none) true])
  | EventData.exit =>
    Except.ok ({ execution_state with should_exit := true }, none)
  | EventData.predictStateEvent config =>
    Except.ok ({ execution_state with predict_state_configuration := config }, none)
  | EventData.methodExecutionStarted name =>
    let es := { execution_state with node_name := name }
    let state2 := state.filter (fun kv => kv.1 ≠ "messages")
    Except.ok (es, some
      [ProtocolEvent.agentStateMessage thread_id agent_name es.node_name run_id
        true "assistant" (filter_state state2 none) true])
  | EventData.methodExecutionFinished =>
    let es := { execution_state with
      predict_state_configuration := [],
      current_tool_call := none,
      argument_buffer := "",
      predicted_state := [] }
    let state2 := state.filter (fun kv => kv.1 ≠ "messages")
    Except.ok (es, some
      [ProtocolEvent.agentStateMessage thread_id agent_name es.node_name run_id
        false "assistant" (filter_state state2 none) true])
  | EventData.flowExecutionStarted =>
    Except.ok (execution_state, none)
  | EventData.flowExecutionFinished =>
    Except.ok ({ execution_state with is_finished := true }, none)
  | EventData.flowExecutionError _ =>
    Except.ok ({ execution_state with is_finished := true }, none)
  | EventData.textMessageStart message_id parent_message_id =>
    Except.ok (execution_state, some
      [ProtocolEvent.textMessageStart message_id parent_message_id])
  | EventData.textMessageContent message_id content =>
    Except.ok (execution_state, some
      [ProtocolEvent.textMessageContent message_id content])
  | EventData.textMessageEnd message_id =>
    Except.ok (execution_state, some
      [ProtocolEvent.textMessageEnd message_id])
  | EventData.actionExecutionStart action_execution_id action_name parent_message_id =>
    let pr := predict_state thread_id agent_name run_id
      (EventData.actionExecutionStart action_execution_id action_name parent_message_id)
      execution_state state
    Except.ok (pr.1, some
      ([ProtocolEvent.actionExecutionStart action_execution_id action_name
          parent_message_id] ++
        match pr.2 with
        | some m => [m]
        | none => []))
  | EventData.actionExecutionArgs action_execution_id args =>
    let pr := predict_state thread_id agent_name run_id
      (EventData.actionExecutionArgs action_execution_id args)
      execution_state state
    Except.ok (pr.1, some
      ([ProtocolEvent.actionExecutionArgs action_execution_id args] ++
        match pr.2 with
        | some m => [m]
        | none => []))
  | EventData.actionExecutionEnd action_execution_id =>
    Except.ok (execution_state, some
      [ProtocolEvent.actionExecutionEnd action_execution_id])
  | EventData.unknown type_name =>
    Except.error ("Unknown event type: " ++ type_name)

/-- The state document prepared before the final emission of
`execute_flow` (crewai_agent.py lines 232-234): the flow's final state
with its message history, when present, transformed to protocol message
form (`crewai_flow_messages_to_copilotkit`, abstracted as `transform`). -/
def execute_flow_final_state (transform : JValue → JValue) (flow_state : StateDict) :
    StateDict :=
  match dictGet flow_state "messages" with
  | some v => dictInsert flow_state "messages" (transform v)
  | none => flow_state

/-- The final emission of `execute_flow` (crewai_agent.py lines 230-248):
after the worker is joined, one agent-state snapshot of the final flow
state, `id` excluded, inactive, `running` the negation of `should_exit`. -/
def execute_flow_final (transform : JValue → JValue) (flow_state : StateDict)
    (thread_id agent_name run_id : String)
    (execution_state : CrewAIFlowExecutionState) : List ProtocolEvent :=
  [ProtocolEvent.agentStateMessage thread_id agent_name
    execution_state.node_name run_id false "assistant"
    (filter_state (execute_flow_final_state transform flow_state) (some ["id"]))
    (!execution_state.should_exit)]

/-- The constructor check of `CrewAIAgent.__init__` (crewai_agent.py
lines 72-73): `(crew is None) == (flow is None)` raises.  The crew and
flow classes themselves are irrelevant to the check and are modelled as
`Option Unit`. -/
def CrewAIAgent_init_check (crew : Option Unit) (flow : Option Unit) :
    Except String Unit :=
  if crew.isNone = flow.isNone then
    Except.error "Either crew or flow must be provided to CrewAIAgent"
  else Except.ok ()

/-- The entry checks of `CrewAIAgent.execute_flow` (crewai_agent.py
lines 164-168): flow must be set, then a thread id is required. -/
def execute_flow_checks (flow : Option Unit) (thread_id : Option String) :
    Except String Unit :=
  if flow.isNone then Except.error "Flow is not set"
  else if thread_id.isNone then Except.error "Thread ID is required"
  else Except.ok ()

/-- Scenario configuration: mirror the "text" argument of tool "save"
into state key "summary". -/
def saveTextConfig : List (String × PredictStateConfig) :=
  [("summary", ⟨"save", some "text"⟩)]

/-- Execution state after that configuration was stored. -/
def scenarioState0 : CrewAIFlowExecutionState :=
  { initialExecutionState with predict_state_configuration := saveTextConfig }

/-- The tool call "save" starts. -/
def scenarioStep1 : CrewAIFlowExecutionState × Option ProtocolEvent :=
  predict_state "t" "a" "r" (EventData.actionExecutionStart "m" "save" none)
    scenarioState0 []

/-- The first argument fragment arrives. -/
def scenarioStep2 : CrewAIFlowExecutionState × Option ProtocolEvent :=
  predict_state "t" "a" "r" (EventData.actionExecutionArgs "m" "\x7b\"te")
    scenarioStep1.1 []

/-- The second argument fragment arrives. -/
def scenarioStep3 : CrewAIFlowExecutionState × Option ProtocolEvent :=
  predict_state "t" "a" "r" (EventData.actionExecutionArgs "m" "xt\": \"hel")
    scenarioStep2.1 []

/-- The final argument fragment arrives, completing the JSON text. -/
def scenarioStep4 : CrewAIFlowExecutionState × Option ProtocolEvent :=
  predict_state "t" "a" "r" (EventData.actionExecutionArgs "m" "lo\"\x7d")
    scenarioStep3.1 []

/-- Execution state with a predicted key named "messages": the tracked
tool "save" feeds its "text" argument into state key "messages". -/
def messagesKeyState : CrewAIFlowExecutionState :=
  { initialExecutionState with
    predict_state_configuration := [("messages", ⟨"save", some "text"⟩)],
    current_tool_call := some "save" }

/-- A flow state carrying an "id" key next to an ordinary key. -/
def idCarryingState : StateDict := [("id", JValue.num 7), ("x", JValue.num 1)]

/-- A tracked execution state whose config mirrors the whole argument
object, used to exercise the parse-failure path. -/
def trackedWholeArgsState : CrewAIFlowExecutionState :=
  { initialExecutionState with
    predict_state_configuration := [("doc", ⟨"save", none⟩)],
    current_tool_call := some "save" }

/-- The flow-finished and flow-error discriminants, the two that mark the
run terminal. -/
def isFlowFinishEvent : EventData → Bool
  | EventData.flowExecutionFinished => true
  | EventData.flowExecutionError _ => true
  | _ => false

/-- A call raised (its result is the `ValueError`), as a proposition on
the embedded `Except` result. -/
def raisesError (x : Except String Unit) : Prop :=
  ∃ e, x = Except.error e


theorem dictGet_filterKey (st : StateDict) (q : String → Bool) (k : String) :
    dictGet (st.filter (fun kv => q kv.1)) k = if q k then dictGet st k else none := by
  induction st with
  | nil => simp [dictGet]
  | cons hd tl ih =>
    by_cases hq : q hd.1
    · by_cases hk : hd.1 = k
      · subst hk
        simp [List.filter_cons, hq, dictGet]
      · simp [List.filter_cons, hq, dictGet, hk, ih]
    · by_cases hk : hd.1 = k
      · subst hk
        simp [List.filter_cons, hq, dictGet, ih]
      · simp [List.filter_cons, hq, dictGet, hk, ih]

theorem dictGet_filterNotMem (st : StateDict) (l : List String) (k : String) :
    dictGet (st.filter (fun kv => kv.1 ∉ l)) k =
      if k ∈ l then none else dictGet st k := by
  have h := dictGet_filterKey st (fun x => decide (x ∉ l)) k
  rw [h]
  by_cases hm : k ∈ l <;> simp [hm]

theorem dictGet_filterNe (st : StateDict) (m k : String) :
    dictGet (st.filter (fun kv => kv.1 ≠ m)) k =
      if k = m then none else dictGet st k := by
  have h := dictGet_filterKey st (fun x => decide (x ≠ m)) k
  rw [h]
  by_cases hm : k = m <;> simp [hm]

theorem dictGet_dictInsert_self (d : StateDict) (k : String) (v : JValue) :
    dictGet (dictInsert d k v) k = some v := by
  induction d with
  | nil => simp [dictInsert, dictGet]
  | cons hd tl ih =>
    by_cases hk : hd.1 = k
    · simp [dictInsert, hk, dictGet]
    · simp [dictInsert, hk, dictGet, ih]

theorem dictGet_dictInsert_ne (d : StateDict) (k k' : String) (v : JValue)
    (h : k ≠ k') : dictGet (dictInsert d k v) k' = dictGet d k' := by
  induction d with
  | nil => simp [dictInsert, dictGet, h]
  | cons hd tl ih =>
    by_cases hk : hd.1 = k
    · subst hk
      simp [dictInsert, dictGet, h]
    · simp [dictInsert, hk, dictGet, ih]

theorem filterKey_idem (l : StateDict) (p : String × JValue → Bool) :
    (l.filter p).filter p = l.filter p := by
  induction l with
  | nil => rfl
  | cons hd tl ih =>
    by_cases h : p hd <;> simp [List.filter_cons, h, ih]

theorem predict_state_args_shape (t a r aid args : String)
    (es : CrewAIFlowExecutionState) (st : StateDict) :
    ∃ ps, (predict_state t a r (EventData.actionExecutionArgs aid args) es st).1 =
      { es with argument_buffer := es.argument_buffer ++ args, predicted_state := ps } := by
  simp only [predict_state]
  split
  · exact ⟨es.predicted_state, rfl⟩
  · split
    · exact ⟨es.predicted_state, rfl⟩
    · split
      · exact ⟨es.predicted_state, rfl⟩
      · split
        · exact ⟨_, rfl⟩
        · exact ⟨_, rfl⟩

theorem predict_state_start_shape (t a r aid aname : String) (pid : Option String)
    (es : CrewAIFlowExecutionState) (st : StateDict) :
    predict_state t a r (EventData.actionExecutionStart aid aname pid) es st =
      ({ es with current_tool_call := some aname, argument_buffer := "" }, none) := rfl

/-- Claim C1: with `predict_state_configuration` mapping key "summary" to
tool "save" argument "text", after the "save" tool call starts and the
argument fragments arrive in order, the `predict_state` calls for the
first two fragments return none, and only the call for the final fragment
returns a snapshot, whose predicted value is summary = "hello". -/
theorem predict_state_streaming_fragments_scenario :
    scenarioStep2.2 = none ∧ scenarioStep3.2 = none ∧
    scenarioStep4.2 = some (ProtocolEvent.agentStateMessage "t" "a" "start" "r"
      true "assistant" [("summary", JValue.str "hello")] true) ∧
    scenarioStep4.1.predicted_state = [("summary", JValue.str "hello")] :=
  ⟨rfl, rfl, rfl, rfl⟩

/-- Claim C4: on an args event whose accumulated argument buffer the
tolerant parser cannot turn into an object, `predict_state` returns none,
for every execution state (hence every prediction configuration).  The
embedded function is total, mirroring that the Python parse failure is
caught inside `predict_state` and never propagates. -/
theorem predict_state_none_on_unparsable_buffer (t a r aid args : String)
    (es : CrewAIFlowExecutionState) (st : StateDict)
    (hp : tolerantParse (es.argument_buffer ++ args) = none) :
    (predict_state t a r (EventData.actionExecutionArgs aid args) es st).2 = none := by
  simp only [predict_state]
  split
  · rfl
  · split
    · rfl
    · rw [hp]

/-- Witness for claim C4 at a concrete unparsable fragment, on a tracked
tool call. -/
theorem predict_state_none_on_unparsable_buffer_witness :
    tolerantParse (trackedWholeArgsState.argument_buffer ++ "oops") = none ∧
    (predict_state "t" "a" "r" (EventData.actionExecutionArgs "m" "oops")
      trackedWholeArgsState []).2 = none :=
  ⟨rfl, predict_state_none_on_unparsable_buffer "t" "a" "r" "m" "oops"
    trackedWholeArgsState [] rfl⟩

/-- Claim C9: an event with an unknown discriminant makes
`handle_crewai_flow_event` fail with the unknown-event `ValueError`, so no
protocol events are produced for it. -/
theorem handle_unknown_event_raises (type_name t a : String) (st : StateDict)
    (r : String) (es : CrewAIFlowExecutionState) :
    handle_crewai_flow_event (EventData.unknown type_name) t a st r es
      = Except.error ("Unknown event type: " ++ type_name) := rfl

/-- Claim C5: `is_finished` after a handled event equals `is_finished`
before it, or-ed with whether the event is flow-finished or flow-error:
it is monotonic, never reset, and set exactly by those two events. -/
theorem handle_is_finished_monotonic (ev : EventData) (t a : String)
    (st : StateDict) (r : String) (es : CrewAIFlowExecutionState) :
    match handle_crewai_flow_event ev t a st r es with
    | Except.ok res => res.1.is_finished = (es.is_finished || isFlowFinishEvent ev)
    | Except.error _ => True := by
  cases ev with
  | actionExecutionStart aid aname pid =>
    simp [handle_crewai_flow_event, isFlowFinishEvent, predict_state_start_shape]
  | actionExecutionArgs aid args =>
    obtain ⟨ps, hps⟩ := predict_state_args_shape t a r aid args es st
    simp [handle_crewai_flow_event, isFlowFinishEvent, hps]
  | _ => simp [handle_crewai_flow_event, isFlowFinishEvent]

/-- Claim C10: `predict_state` appends every args fragment to
`argument_buffer` unconditionally (before the tracked-tool check), and
across the whole event handler the buffer is reset exactly on tool-call
start and on method finish, appended to on args events, and untouched
otherwise. -/
theorem argument_buffer_accumulation (t a r aid args : String)
    (es : CrewAIFlowExecutionState) (st : StateDict) :
    (predict_state t a r (EventData.actionExecutionArgs aid args) es st).1.argument_buffer
      = es.argument_buffer ++ args
    ∧ ∀ ev, match handle_crewai_flow_event ev t a st r es with
        | Except.ok res => res.1.argument_buffer =
            (match ev with
             | EventData.actionExecutionStart _ _ _ => ""
             | EventData.actionExecutionArgs _ args2 => es.argument_buffer ++ args2
             | EventData.methodExecutionFinished => ""
             | _ => es.argument_buffer)
        | Except.error _ => True := by
  constructor
  · obtain ⟨ps, hps⟩ := predict_state_args_shape t a r aid args es st
    rw [hps]
  · intro ev
    cases ev with
    | actionExecutionStart aid2 aname pid =>
      simp [handle_crewai_flow_event, predict_state_start_shape]
    | actionExecutionArgs aid2 args2 =>
      obtain ⟨ps, hps⟩ := predict_state_args_shape t a r aid2 args2 es st
      simp [handle_crewai_flow_event, hps]
    | _ => simp [handle_crewai_flow_event]

/-- Counterexample to claim C3 as stated: on a method-started event over a
flow state carrying an "id" key, the emitted snapshot state is the flow
state with *both* "messages" and "id" removed — it drops "id" too, not
only "messages". -/
theorem handle_method_started_counterexample :
    handle_crewai_flow_event (EventData.methodExecutionStarted "n") "t" "a"
      idCarryingState "r" initialExecutionState
      = Except.ok ({ initialExecutionState with node_name := "n" },
          some [ProtocolEvent.agentStateMessage "t" "a" "n" "r" true "assistant"
            [("x", JValue.num 1)] true])
    ∧ idCarryingState.filter (fun kv => kv.1 ≠ "messages") = idCarryingState
    ∧ [("x", JValue.num 1)] ≠ idCarryingState := by
  refine ⟨rfl, rfl, ?_⟩
  intro h
  simp only [idCarryingState] at h
  injection h with h1 h2
  exact List.noConfusion h2

/-- Claim C3 (amended): on every method-started event the handler sets
`node_name` to the event's name and emits exactly one active, running
agent-state snapshot of the current flow state with both "messages" and
"id" removed and every other key kept. -/
theorem handle_method_started_snapshot (name t a : String) (st : StateDict)
    (r : String) (es : CrewAIFlowExecutionState) :
    handle_crewai_flow_event (EventData.methodExecutionStarted name) t a st r es
      = Except.ok ({ es with node_name := name },
          some [ProtocolEvent.agentStateMessage t a name r true "assistant"
            (filter_state (st.filter (fun kv => kv.1 ≠ "messages")) none) true])
    ∧ ∀ k, dictGet (filter_state (st.filter (fun kv => kv.1 ≠ "messages")) none) k
        = if k = "messages" ∨ k = "id" then none else dictGet st k := by
  constructor
  · rfl
  · intro k
    simp only [filter_state]
    rw [dictGet_filterNotMem, dictGet_filterNe]
    by_cases h1 : k = "messages"
    · subst h1
      simp
    · by_cases h2 : k = "id"
      · subst h2
        simp
      · simp [h1, h2]

/-- Claim C6: the final emission of `execute_flow` is exactly one
agent-state snapshot, inactive, with `running` the negation of
`should_exit`, whose state is the flow's final state with "id" excluded,
the message history transformed and kept, and every other key unchanged.
Quantified over the message transformation, whose implementation
(`crewai_flow_messages_to_copilotkit`) lives outside this module. -/
theorem execute_flow_final_snapshot (transform : JValue → JValue) (fs : StateDict)
    (t a r : String) (es : CrewAIFlowExecutionState) :
    execute_flow_final transform fs t a r es
      = [ProtocolEvent.agentStateMessage t a es.node_name r false "assistant"
          (filter_state (execute_flow_final_state transform fs) (some ["id"]))
          (!es.should_exit)]
    ∧ dictGet (filter_state (execute_flow_final_state transform fs) (some ["id"])) "id"
        = none
    ∧ dictGet (filter_state (execute_flow_final_state transform fs) (some ["id"]))
        "messages" = (dictGet fs "messages").map transform
    ∧ ∀ k, k ≠ "id" → k ≠ "messages" →
        dictGet (filter_state (execute_flow_final_state transform fs) (some ["id"])) k
          = dictGet fs k := by
  refine ⟨rfl, ?_, ?_, ?_⟩
  · simp only [filter_state]
    rw [dictGet_filterNotMem]
    simp
  · simp only [filter_state]
    rw [dictGet_filterNotMem]
    simp only [execute_flow_final_state]
    cases hm : dictGet fs "messages" with
    | none => simp [hm]
    | some v => simp [dictGet_dictInsert_self, hm]
  · intro k hk1 hk2
    simp only [filter_state]
    rw [dictGet_filterNotMem]
    simp only [execute_flow_final_state]
    cases hm : dictGet fs "messages" with
    | none => simp [hk1]
    | some v =>
      rw [dictGet_dictInsert_ne _ _ _ _ (fun hh => hk2 hh.symm)]
      simp [hk1]

/-- Witness for claim C6: on a concrete final state the ordinary key "x"
survives the final filtering. -/
theorem execute_flow_final_snapshot_witness :
    dictGet (filter_state (execute_flow_final_state (fun v => v) idCarryingState)
      (some ["id"])) "x" = some (JValue.num 1) := by
  have h := execute_flow_final_snapshot (fun v => v) idCarryingState "t" "a" "r"
    initialExecutionState
  rw [h.2.2.2 "x" (by decide) (by decide)]
  rfl

/-- Claim C7: `filter_state` is idempotent for every exclude-key
argument, and on a state already free of the default excluded keys it is
the identity. -/
theorem filter_state_idempotent (s : StateDict) (ek : Option (List String)) :
    filter_state (filter_state s ek) ek = filter_state s ek
    ∧ ((∀ kv ∈ s, kv.1 ≠ "messages" ∧ kv.1 ≠ "id") → filter_state s none = s) := by
  constructor
  · simp only [filter_state]
    exact filterKey_idem _ _
  · intro h
    simp only [filter_state]
    rw [List.filter_eq_self]
    intro kv hkv
    obtain ⟨h1, h2⟩ := h kv hkv
    simp [h1, h2]

/-- Witness for claim C7: a one-key state without the excluded keys is
returned unchanged. -/
theorem filter_state_idempotent_witness :
    filter_state [("x", JValue.num 1)] none = [("x", JValue.num 1)] :=
  (filter_state_idempotent [("x", JValue.num 1)] (some ["k"])).2
    (by intro kv hkv; simp at hkv; simp [hkv])

/-- Claim C8: constructing a `CrewAIAgent` raises exactly when neither or
both of crew and flow are given, and `execute_flow` on a flow-mode agent
raises exactly when the thread id is missing. -/
theorem agent_configuration_errors (crew flow : Option Unit)
    (thread_id : Option String) :
    (raisesError (CrewAIAgent_init_check crew flow) ↔
      ((crew = none ∧ flow = none) ∨ (crew ≠ none ∧ flow ≠ none)))
    ∧ (flow ≠ none →
        (raisesError (execute_flow_checks flow thread_id) ↔ thread_id = none)) := by
  cases crew <;> cases flow <;> cases thread_id <;>
    simp [raisesError, CrewAIAgent_init_check, execute_flow_checks]

/-- Witness for claim C8: flow mode with a missing thread id raises. -/
theorem agent_configuration_errors_witness :
    raisesError (execute_flow_checks (some ()) none) :=
  ((agent_configuration_errors none (some ()) none).2 (by simp)).mpr rfl

/-- Counterexample to claim C2 as stated: with a predicted key named
"messages", the snapshot returned by `predict_state` carries the empty
state — the merged document is filtered afterwards, so the predicted
"messages" key does not survive, contradicting the claimed
filter-then-merge semantics under which it would. -/
theorem predict_state_snapshot_counterexample :
    (predict_state "t" "a" "r"
      (EventData.actionExecutionArgs "m" "\x7b\"text\": \"hi\"\x7d")
      messagesKeyState []).2
      = some (ProtocolEvent.agentStateMessage "t" "a" "start" "r" true "assistant"
          [] true)
    ∧ (predict_state "t" "a" "r"
        (EventData.actionExecutionArgs "m" "\x7b\"text\": \"hi\"\x7d")
        messagesKeyState []).1.predicted_state = [("messages", JValue.str "hi")]
    ∧ dictMerge (filter_state [] none) [("messages", JValue.str "hi")]
        = [("messages", JValue.str "hi")]
    ∧ ProtocolEvent.agentStateMessage "t" "a" "start" "r" true "assistant" [] true
        ≠ ProtocolEvent.agentStateMessage "t" "a" "start" "r" true "assistant"
            [("messages", JValue.str "hi")] true := by
  refine ⟨rfl, rfl, rfl, ?_⟩
  intro h
  injection h with h1 h2 h3 h4 h5 h6 h7 h8
  exact List.noConfusion h7

/-- Claim C2 (amended): on an args event for a tracked tool call whose
buffer parses, `predict_state` folds the matching configuration entries
into the predicted state; if at least one key was updated it returns an
active, running snapshot whose state is the current flow state merged
with the predicted state and *then* filtered of the excluded keys (so a
predicted key named "messages" or "id" is removed too); with no update it
returns none. -/
theorem predict_state_snapshot_merge (t a r aid args : String)
    (es : CrewAIFlowExecutionState) (st : StateDict) (tc : String) (cur : StateDict)
    (hc : es.current_tool_call = some tc)
    (hm : (es.predict_state_configuration.map (fun c => c.2.tool_name)).contains tc
      = true)
    (hp : tolerantParse (es.argument_buffer ++ args) = some cur) :
    (predict_state t a r (EventData.actionExecutionArgs aid args) es st).1.predicted_state
      = (predict_state_update_loop tc cur es.predict_state_configuration
          es.predicted_state).1
    ∧ (predict_state t a r (EventData.actionExecutionArgs aid args) es st).2
      = (if (predict_state_update_loop tc cur es.predict_state_configuration
              es.predicted_state).2 then
          some (ProtocolEvent.agentStateMessage t a es.node_name r true "assistant"
            (filter_state (dictMerge st
              (predict_state_update_loop tc cur es.predict_state_configuration
                es.predicted_state).1) none) true)
        else none) := by
  simp only [predict_state, hc, hm, hp, Bool.not_true, Bool.false_eq_true, if_false]
  split <;> exact ⟨rfl, rfl⟩

/-- Witness for claim C2 (amended) at the C1 scenario's final fragment. -/
theorem predict_state_snapshot_merge_witness :
    scenarioStep4.2
      = (if (predict_state_update_loop "save" [("text", JValue.str "hello")]
              saveTextConfig []).2 then
          some (ProtocolEvent.agentStateMessage "t" "a" "start" "r" true "assistant"
            (filter_state (dictMerge []
              (predict_state_update_loop "save" [("text", JValue.str "hello")]
                saveTextConfig []).1) none) true)
        else none) :=
  (predict_state_snapshot_merge "t" "a" "r" "m" "lo\"\x7d" scenarioStep3.1 []
    "save" [("text", JValue.str "hello")] rfl rfl rfl).2
